import Mathlib

/-!
Shallow embedding of the read-only query admission gate of `main.py`
(function `is_read_only_query`) and of the execution wrapper (`ask_db`).

Strings are modelled as `List Char` (inputs enter through `String.toList`).
The modelling covers the ASCII range: Python's `str.upper`, `str.strip`,
`\w`, and `\s` are Unicode-aware, but agree with the definitions below on
ASCII text, which is the domain of SQL keywords the classifier inspects.
-/

namespace DbAssistant

/-- Python `str.isspace` / regex `\s` on the ASCII range:
space, `\t`, `\n`, `\r`, `\x0b` (vertical tab), `\x0c` (form feed),
and the separator control characters `\x1c`-`\x1f`. -/
def pyIsSpace (c : Char) : Bool :=
  c == ' ' || c == '\t' || c == '\n' || c == '\r' || c == '\x0b' || c == '\x0c' ||
  c == '\x1c' || c == '\x1d' || c == '\x1e' || c == '\x1f'

/-- Python regex `\w` on the ASCII range: letters, digits, underscore. -/
def isWordChar (c : Char) : Bool :=
  c.isAlphanum || c == '_'

/-- Python `str.strip()`: drop leading and trailing whitespace. -/
def pyStrip (s : List Char) : List Char :=
  ((s.dropWhile pyIsSpace).reverse.dropWhile pyIsSpace).reverse

/-- Python `str.upper()` (ASCII range). -/
def pyUpper (s : List Char) : List Char :=
  s.map Char.toUpper

/-- The two-character sequence `--` opening a line comment. -/
def dashdash : List Char := ['-', '-']

/-- The two-character sequence `/*` opening a block comment. -/
def slashstar : List Char := ['/', '*']

/-- The two-character sequence `*/` closing a block comment. -/
def starslash : List Char := ['*', '/']

/-- `re.sub(r'--.*?$', '', sql, flags=re.MULTILINE)`: on each line, cut
everything from the first `--` to the end of the line, keeping the `'\n'`.
The flag is `true` while inside a line comment.  (Entering comment mode
consumes only the first `-`; the second `-` is then dropped by comment
mode itself, which removes every character up to the next `'\n'`.) -/
def stripLineAux : Bool → List Char → List Char
  | _, [] => []
  | false, [ch] => [ch]
  | false, ch :: ch2 :: rest =>
      if ch = '-' ∧ ch2 = '-' then stripLineAux true (ch2 :: rest)
      else ch :: stripLineAux false (ch2 :: rest)
  | true, ch :: rest =>
      if ch = '\n' then '\n' :: stripLineAux false rest
      else stripLineAux true rest

/-- Remove line comments from the whole text. -/
def stripLineComments (s : List Char) : List Char :=
  stripLineAux false s

/-- `re.sub(r'/\*.*?\*/', '', sql_clean, flags=re.DOTALL)`: scanning left to
right, each `/*` is removed together with everything up to the nearest
following `*/`; a `/*` with no later `*/` does not match the pattern and is
kept verbatim.  The first argument buffers (in reverse) the characters
consumed since the pending `/*`, so they can be restored when the comment
turns out to be unclosed. -/
def blockAux : Option (List Char) → List Char → List Char
  | none, [] => []
  | some buf, [] => '/' :: '*' :: buf.reverse
  | none, [ch] => [ch]
  | none, ch :: ch2 :: rest =>
      if ch = '/' ∧ ch2 = '*' then blockAux (some []) rest
      else ch :: blockAux none (ch2 :: rest)
  | some buf, [ch] => '/' :: '*' :: (ch :: buf).reverse
  | some buf, ch :: ch2 :: rest =>
      if ch = '*' ∧ ch2 = '/' then blockAux none rest
      else blockAux (some (ch :: buf)) (ch2 :: rest)

/-- Remove block comments from the whole text. -/
def stripBlockComments (s : List Char) : List Char :=
  blockAux none s

/-- Python `str.split(';')`. -/
def splitSemi : List Char → List (List Char)
  | [] => [[]]
  | ch :: rest =>
      if ch = ';' then [] :: splitSemi rest
      else
        match splitSemi rest with
        | [] => [[ch]]
        | g :: gs => (ch :: g) :: gs

/-- Lines 25-30 of `main.py`: remove line comments, then block comments,
strip, split on `;`, strip each fragment and keep the non-empty ones. -/
def cleanedStatements (sql : String) : List (List Char) :=
  (((splitSemi (pyStrip (stripBlockComments (stripLineComments sql.toList)))).map
    pyStrip).filter (fun stmt => !stmt.isEmpty))

/-- Keyword `SELECT`. -/
def selectKw : List Char := "SELECT".toList

/-- Keyword `WITH`. -/
def withKw : List Char := "WITH".toList

/-- Keyword `EXPLAIN`. -/
def explainKw : List Char := "EXPLAIN".toList

/-- Keyword `DESCRIBE`. -/
def describeKw : List Char := "DESCRIBE".toList

/-- Keyword `SHOW`. -/
def showKw : List Char := "SHOW".toList

/-- Keyword `PRAGMA`. -/
def pragmaKw : List Char := "PRAGMA".toList

/-- Word `ON` (the pragma patterns are matched against the upper-cased
statement, so the lower-case `on`/`off` of the source regexes, taken with
`re.IGNORECASE`, are modelled upper-case). -/
def onKw : List Char := "ON".toList

/-- Word `OFF`. -/
def offKw : List Char := "OFF".toList

/-- The fourteen forbidden keywords of the source patterns
`\b(INSERT|UPDATE|DELETE|DROP|CREATE|ALTER|TRUNCATE|REPLACE)\b`,
`\b(GRANT|REVOKE|SET|RESET)\b`, `\bCALL\b`, `\bEXECUTE\b`. -/
def forbiddenKeywords : List (List Char) :=
  ["INSERT".toList, "UPDATE".toList, "DELETE".toList, "DROP".toList,
   "CREATE".toList, "ALTER".toList, "TRUNCATE".toList, "REPLACE".toList,
   "GRANT".toList, "REVOKE".toList, "SET".toList, "RESET".toList,
   "CALL".toList, "EXECUTE".toList]

/-- After a keyword occurrence, regex `\b` holds when the text ends or the
next character is not a word character. -/
def boundaryAfter (kw s : List Char) : Bool :=
  match s.drop kw.length with
  | [] => true
  | c :: _ => !isWordChar c

/-- `kw` occurs at the very start of `s` and is followed by a `\b`
boundary: the anchored pattern `^KW\b`. -/
def wordAt (kw s : List Char) : Bool :=
  kw.isPrefixOf s && boundaryAfter kw s

/-- Scan for `\bKW\b` anywhere in the text; the flag records whether the
previous character was a word character (so that `\b` holds before the
occurrence). -/
def containsWordFrom (kw : List Char) : Bool → List Char → Bool
  | _, [] => false
  | prevW, ch :: rest =>
      ((!prevW) && wordAt kw (ch :: rest)) || containsWordFrom kw (isWordChar ch) rest

/-- Regex search for `\bKW\b` in the text. -/
def containsWord (kw s : List Char) : Bool :=
  containsWordFrom kw false s

/-- Python regex `$` without `re.MULTILINE`: end of the text, or just
before a single trailing `'\n'`. -/
def lineEnd : List Char → Bool
  | [] => true
  | [ch] => ch == '\n'
  | _ => false

/-- Match `\s*KW$` at the given position (the `\s*` must consume all
contiguous whitespace, since `KW` starts with a non-space character). -/
def afterEqMatches (ending rest : List Char) : Bool :=
  let r := rest.dropWhile pyIsSpace
  ending.isPrefixOf r && lineEnd (r.drop ending.length)

/-- Match `.*=\s*KW$` : an `=` on the same line (regex `.` does not cross
`'\n'`), then whitespace, then `KW`, then `$`. -/
def eqThen (ending : List Char) : List Char → Bool
  | [] => false
  | ch :: rest =>
      if ch = '\n' then false
      else if ch = '=' then afterEqMatches ending rest || eqThen ending rest
      else eqThen ending rest

/-- Regex search for `\bPRAGMA\b.*=\s*on$` (on the upper-cased statement):
a word-bounded `PRAGMA` anywhere, then `.*=\s*ON$` from that point. -/
def pragmaOnFrom : Bool → List Char → Bool
  | _, [] => false
  | prevW, ch :: rest =>
      ((!prevW) && wordAt pragmaKw (ch :: rest) &&
        eqThen onKw (List.drop pragmaKw.length (ch :: rest)))
        || pragmaOnFrom (isWordChar ch) rest

/-- The forbidden pattern `\bPRAGMA\b.*=\s*on$`. -/
def pragmaOnSearch (u : List Char) : Bool :=
  pragmaOnFrom false u

/-- The allowed pattern `^PRAGMA\b.*=\s*off$`. -/
def matchPragmaOff (u : List Char) : Bool :=
  wordAt pragmaKw u && eqThen offKw (u.drop pragmaKw.length)

/-- Search for `SELECT\b` (no boundary before it in the source pattern)
before the first `'\n'`, at or after the current position. -/
def selectSearch : List Char → Bool
  | [] => false
  | ch :: rest =>
      if ch = '\n' then false
      else wordAt selectKw (ch :: rest) || selectSearch rest

/-- The allowed pattern `^WITH\b.*SELECT\b` (no `re.DOTALL`: the `.*`
cannot cross a newline, so the `SELECT` must occur on the first line). -/
def matchWithSelect (u : List Char) : Bool :=
  wordAt withKw u && selectSearch (u.drop withKw.length)

/-- Lines 47-53 of `main.py`: the statement (upper-cased) matches one of
the forbidden patterns. -/
def isForbiddenStmt (u : List Char) : Bool :=
  forbiddenKeywords.any (fun kw => containsWord kw u) || pragmaOnSearch u

/-- Lines 37-44 of `main.py`: the statement (upper-cased) matches one of
the allowed read-only patterns, tried in source order. -/
def isAllowedStmt (u : List Char) : Bool :=
  wordAt selectKw u || matchWithSelect u || wordAt explainKw u ||
  wordAt describeKw u || wordAt showKw u || matchPragmaOff u

/-- The verdict of the per-statement step of the loop (lines 55-74): not
forbidden, and matching an allowed pattern. -/
def statementVerdict (s : List Char) : Bool :=
  !isForbiddenStmt (pyUpper s) && isAllowedStmt (pyUpper s)

/-- The loop of lines 55-74: return `False` as soon as a statement matches
a forbidden pattern or fails to match every allowed pattern.  (The
`if not statement: continue` guard of the source is dead code: the
statement list holds only non-empty statements.) -/
def checkStatements : List (List Char) → Bool
  | [] => true
  | s :: rest =>
      if isForbiddenStmt (pyUpper s) then false
      else if !isAllowedStmt (pyUpper s) then false
      else checkStatements rest

/-- `is_read_only_query` of `main.py`: clean, split, and check every
statement; an empty statement list is read-only. -/
def is_read_only_query (sql : String) : Bool :=
  checkStatements (cleanedStatements sql)

/-- A dynamically typed column value of a result row. -/
inductive Value where
  | intV (n : Int)
  | strV (s : String)
  | boolV (b : Bool)
  | nullV
deriving DecidableEq, Repr

/-- One result row: `dict(row._mapping)` — an insertion-ordered mapping
from column name to value, modelled as an association list. -/
abbrev Row := List (String × Value)

/-- A value of the returned dictionary: the echoed SQL text or error
message (a string), or the materialized row list. -/
inductive JVal where
  | jstr (s : String)
  | jrows (rs : List Row)
deriving DecidableEq, Repr

/-- The dictionary `ask_db` returns, as an insertion-ordered association
list (Python dict literals preserve insertion order). -/
abbrev Payload := List (String × JVal)

/-- The connection capability supplied by the engine:
`conn.execute(text(sql)).fetchall()` either yields the ordered row list or
raises a fault carrying the engine's description, modelled as `Except`. -/
structure Conn where
  run : String → Except String (List Row)

/-- Observable events on the database connection, to express that a
rejected query never touches the connection and that the
`with engine.connect()` scope releases it on every path. -/
inductive DBEvent where
  | acquire
  | exec (sql : String)
  | release
deriving DecidableEq, Repr

/-- The fixed policy message of line 212 of `main.py`. -/
def policyMessage : String :=
  "Only read-only queries are allowed. Permitted operations: SELECT, WITH...SELECT, EXPLAIN, DESCRIBE, SHOW"

/-- Python `str.strip()` at the `String` level. -/
def pyStripS (s : String) : String :=
  String.mk (pyStrip s.toList)

/-- `ask_db` of `main.py` (lines 193-225): strip the input, reject
non-read-only text without touching the connection, otherwise run the text
under `with engine.connect()` (acquire, execute, release — also on fault)
and return either the materialized rows or the caught fault as data.
`[dict(row._mapping) for row in result]` is the identity on rows already
modelled as ordered column-to-value lists.  The second component records
the connection events in order. -/
def ask_db (conn : Conn) (sql0 : String) : Payload × List DBEvent :=
  if !is_read_only_query (pyStripS sql0) then
    ([("error", JVal.jstr policyMessage), ("sql", JVal.jstr (pyStripS sql0))], [])
  else
    match conn.run (pyStripS sql0) with
    | Except.error e =>
        ([("error", JVal.jstr ("SQL execution failed: " ++ e)),
          ("sql", JVal.jstr (pyStripS sql0))],
         [DBEvent.acquire, DBEvent.exec (pyStripS sql0), DBEvent.release])
    | Except.ok rows =>
        ([("sql", JVal.jstr (pyStripS sql0)), ("result", JVal.jrows rows)],
         [DBEvent.acquire, DBEvent.exec (pyStripS sql0), DBEvent.release])

/-- Key lookup in the returned dictionary. -/
def lookupKey (k : String) : Payload → Option JVal
  | [] => none
  | (k2, v) :: rest => if k2 = k then some v else lookupKey k rest

/-- `pat` occurs as a contiguous substring. -/
def containsSeq (pat : List Char) : List Char → Bool
  | [] => pat.isEmpty
  | ch :: rest => pat.isPrefixOf (ch :: rest) || containsSeq pat rest

/-- The statement starts with one of the five allowed keyword patterns:
`^SELECT\b`, `^WITH\b.*SELECT\b`, `^EXPLAIN\b`, `^DESCRIBE\b`, `^SHOW\b`
(everything of `read_only_patterns` except the pragma toggle). -/
def startsReadOnly (u : List Char) : Bool :=
  wordAt selectKw u || matchWithSelect u || wordAt explainKw u ||
  wordAt describeKw u || wordAt showKw u

/-- A connection whose queries succeed with no rows. -/
def dummyConn : Conn := ⟨fun _ => Except.ok []⟩

/-- A connection whose queries always fault. -/
def faultConn : Conn := ⟨fun _ => Except.error "relation missing"⟩

/-- A connection yielding the single row `{x: 1}`. -/
def oneRowConn : Conn := ⟨fun _ => Except.ok [[("x", Value.intV 1)]]⟩

/-! General lemmas about the classifier loop. -/

theorem checkStatements_eq_true_iff (l : List (List Char)) :
    checkStatements l = true ↔ ∀ s ∈ l, statementVerdict s = true := by
  induction l with
  | nil => simp [checkStatements]
  | cons s rest ih =>
    cases hf : isForbiddenStmt (pyUpper s) <;>
      cases ha : isAllowedStmt (pyUpper s) <;>
        simp [checkStatements, statementVerdict, hf, ha, ih]

theorem checkStatements_eq_false_of_forbidden {l : List (List Char)} {s : List Char}
    (hs : s ∈ l) (hf : isForbiddenStmt (pyUpper s) = true) :
    checkStatements l = false := by
  cases h : checkStatements l with
  | false => rfl
  | true =>
    have := (checkStatements_eq_true_iff l).mp h s hs
    simp [statementVerdict, hf] at this

theorem isAllowedStmt_of_startsReadOnly {u : List Char}
    (h : startsReadOnly u = true) : isAllowedStmt u = true := by
  simp only [startsReadOnly, Bool.or_eq_true] at h
  simp only [isAllowedStmt, Bool.or_eq_true]
  tauto

theorem is_read_only_of_single {sql : String} {s : List Char}
    (hcs : cleanedStatements sql = [s])
    (hnf : isForbiddenStmt (pyUpper s) = false)
    (ha : isAllowedStmt (pyUpper s) = true) :
    is_read_only_query sql = true := by
  unfold is_read_only_query
  rw [hcs]
  simp [checkStatements, hnf, ha]

/-! General lemmas about comment stripping, used for the invariance of the
verdict under insertion of comments. -/

theorem containsSeq_cons_false {pat : List Char} {ch : Char} {rest : List Char}
    (h : containsSeq pat (ch :: rest) = false) :
    pat.isPrefixOf (ch :: rest) = false ∧ containsSeq pat rest = false := by
  have h2 : (pat.isPrefixOf (ch :: rest) || containsSeq pat rest) = false := h
  constructor
  · cases hp : pat.isPrefixOf (ch :: rest) with
    | false => rfl
    | true => rw [hp] at h2; simp at h2
  · cases hp : containsSeq pat rest with
    | false => rfl
    | true => rw [hp] at h2; simp at h2

theorem stripLineAux_false_id {s : List Char}
    (h : containsSeq dashdash s = false) : stripLineAux false s = s := by
  induction s with
  | nil => rfl
  | cons ch rest ih =>
    cases rest with
    | nil => rfl
    | cons ch2 rest2 =>
      have hne : ¬(ch = '-' ∧ ch2 = '-') := by
        rintro ⟨e1, e2⟩
        subst e1; subst e2
        simp [containsSeq, dashdash, List.isPrefixOf] at h
      have h2 : containsSeq dashdash (ch2 :: rest2) = false :=
        (containsSeq_cons_false h).2
      simp only [stripLineAux]
      rw [if_neg hne, ih h2]

theorem stripLineAux_true_append {c : List Char}
    (h : c.all (fun ch => ch != '\n') = true) (t : List Char) :
    stripLineAux true (c ++ t) = stripLineAux true t := by
  induction c with
  | nil => rfl
  | cons ch c2 ih =>
    simp only [List.all_cons, Bool.and_eq_true, bne_iff_ne] at h
    simp only [List.cons_append, stripLineAux]
    rw [if_neg h.1]
    exact ih h.2

theorem stripLineAux_true_eq_false {b : List Char}
    (h : b = [] ∨ ∃ b2, b = '\n' :: b2) :
    stripLineAux true b = stripLineAux false b := by
  rcases h with h | ⟨b2, h⟩
  · subst h; rfl
  · subst h
    cases b2 with
    | nil => rfl
    | cons c b3 =>
      have e : stripLineAux false ('\n' :: c :: b3) =
          '\n' :: stripLineAux false (c :: b3) := by
        simp only [stripLineAux]
        rw [if_neg]
        rintro ⟨e1, _⟩
        exact absurd e1 (by decide)
      rw [e]
      rfl

theorem stripLineAux_false_append (a x : List Char)
    (h : containsSeq dashdash (a ++ x.take 1) = false) :
    stripLineAux false (a ++ x) = a ++ stripLineAux false x := by
  induction a with
  | nil => rfl
  | cons ch a2 ih =>
    cases a2 with
    | nil =>
      cases x with
      | nil => rfl
      | cons y x2 =>
        have hne : ¬(ch = '-' ∧ y = '-') := by
          rintro ⟨e1, e2⟩
          subst e1; subst e2
          simp [containsSeq, dashdash, List.isPrefixOf] at h
        show stripLineAux false (ch :: y :: x2) = ch :: stripLineAux false (y :: x2)
        simp only [stripLineAux]
        rw [if_neg hne]
    | cons c2 a3 =>
      have hne : ¬(ch = '-' ∧ c2 = '-') := by
        rintro ⟨e1, e2⟩
        subst e1; subst e2
        simp [containsSeq, dashdash, List.isPrefixOf] at h
      have h2 : containsSeq dashdash (c2 :: a3 ++ x.take 1) = false :=
        (containsSeq_cons_false h).2
      show stripLineAux false (ch :: (c2 :: a3 ++ x)) =
        ch :: (c2 :: a3 ++ stripLineAux false x)
      have estep : stripLineAux false (ch :: (c2 :: a3 ++ x)) =
          ch :: stripLineAux false (c2 :: a3 ++ x) := by
        simp only [stripLineAux]
        rw [if_neg hne]
        rfl
      rw [estep]
      exact congrArg (List.cons ch) (ih h2)

theorem blockAux_none_id {s : List Char}
    (h : containsSeq slashstar s = false) : blockAux none s = s := by
  induction s with
  | nil => rfl
  | cons ch rest ih =>
    cases rest with
    | nil => rfl
    | cons ch2 rest2 =>
      have hne : ¬(ch = '/' ∧ ch2 = '*') := by
        rintro ⟨e1, e2⟩
        subst e1; subst e2
        simp [containsSeq, slashstar, List.isPrefixOf] at h
      have h2 : containsSeq slashstar (ch2 :: rest2) = false :=
        (containsSeq_cons_false h).2
      simp only [blockAux]
      rw [if_neg hne, ih h2]

theorem blockAux_none_append (a x : List Char)
    (h : containsSeq slashstar (a ++ x.take 1) = false) :
    blockAux none (a ++ x) = a ++ blockAux none x := by
  induction a with
  | nil => rfl
  | cons ch a2 ih =>
    cases a2 with
    | nil =>
      cases x with
      | nil => rfl
      | cons y x2 =>
        have hne : ¬(ch = '/' ∧ y = '*') := by
          rintro ⟨e1, e2⟩
          subst e1; subst e2
          simp [containsSeq, slashstar, List.isPrefixOf] at h
        show blockAux none (ch :: y :: x2) = ch :: blockAux none (y :: x2)
        simp only [blockAux]
        rw [if_neg hne]
    | cons c2 a3 =>
      have hne : ¬(ch = '/' ∧ c2 = '*') := by
        rintro ⟨e1, e2⟩
        subst e1; subst e2
        simp [containsSeq, slashstar, List.isPrefixOf] at h
      have h2 : containsSeq slashstar (c2 :: a3 ++ x.take 1) = false :=
        (containsSeq_cons_false h).2
      show blockAux none (ch :: (c2 :: a3 ++ x)) =
        ch :: (c2 :: a3 ++ blockAux none x)
      have estep : blockAux none (ch :: (c2 :: a3 ++ x)) =
          ch :: blockAux none (c2 :: a3 ++ x) := by
        simp only [blockAux]
        rw [if_neg hne]
        rfl
      rw [estep]
      exact congrArg (List.cons ch) (ih h2)

theorem blockAux_some_close (c : List Char) :
    containsSeq starslash c = false → ∀ buf t,
      blockAux (some buf) (c ++ '*' :: '/' :: t) = blockAux none t := by
  induction c with
  | nil =>
    intro _ buf t
    rfl
  | cons ch c2 ih =>
    intro hc buf t
    cases c2 with
    | nil =>
      have hne : ¬(ch = '*' ∧ '*' = '/') := by
        rintro ⟨_, e⟩
        exact absurd e (by decide)
      show blockAux (some buf) (ch :: '*' :: '/' :: t) = blockAux none t
      have estep : blockAux (some buf) (ch :: '*' :: '/' :: t) =
          blockAux (some (ch :: buf)) ('*' :: '/' :: t) := by
        simp only [blockAux]
        rw [if_neg hne]
      rw [estep]
      rfl
    | cons d c3 =>
      have hne : ¬(ch = '*' ∧ d = '/') := by
        rintro ⟨e1, e2⟩
        subst e1; subst e2
        simp [containsSeq, starslash, List.isPrefixOf] at hc
      have h2 : containsSeq starslash (d :: c3) = false :=
        (containsSeq_cons_false hc).2
      show blockAux (some buf) (ch :: (d :: c3 ++ '*' :: '/' :: t)) = blockAux none t
      have estep : blockAux (some buf) (ch :: (d :: c3 ++ '*' :: '/' :: t)) =
          blockAux (some (ch :: buf)) (d :: c3 ++ '*' :: '/' :: t) := by
        simp only [blockAux]
        rw [if_neg hne]
        rfl
      rw [estep]
      exact ih h2 (ch :: buf) t

/-! The claims. -/

/-- C1: whenever one of the cleaned, semicolon-delimited statements of the
input contains (as a whole word, after upper-casing) one of the fourteen
forbidden keywords, `is_read_only_query` returns `false` — regardless of
any allowed prefix the input may have, since the forbidden check precedes
the allowed-prefix check. -/
theorem forbidden_keyword_rejects (sql : String) (s kw : List Char)
    (hs : s ∈ cleanedStatements sql) (hkw : kw ∈ forbiddenKeywords)
    (hw : containsWord kw (pyUpper s) = true) :
    is_read_only_query sql = false := by
  unfold is_read_only_query
  apply checkStatements_eq_false_of_forbidden hs
  unfold isForbiddenStmt
  have hany : forbiddenKeywords.any (fun kw2 => containsWord kw2 (pyUpper s)) = true :=
    List.any_eq_true.mpr ⟨kw, hkw, hw⟩
  rw [hany]
  rfl

-- Witness for C1: `SELECT 1; DROP TABLE x` starts with `SELECT` yet is
-- rejected, through the statement `DROP TABLE x` and the keyword `DROP`.
theorem forbidden_keyword_rejects_witness :
    ("DROP TABLE x".toList ∈ cleanedStatements "SELECT 1; DROP TABLE x") ∧
    is_read_only_query "SELECT 1; DROP TABLE x" = false :=
  ⟨by decide,
   forbidden_keyword_rejects "SELECT 1; DROP TABLE x" "DROP TABLE x".toList
     "DROP".toList (by decide) (by decide) (by decide)⟩

/-- C2: on an input the classifier rejects, `ask_db` returns the fixed
policy message together with the trimmed SQL, and produces no connection
event at all — the connection is never acquired. -/
theorem ask_db_policy_rejection (conn : Conn) (sql : String)
    (h : is_read_only_query (pyStripS sql) = false) :
    ask_db conn sql =
      ([("error", JVal.jstr policyMessage), ("sql", JVal.jstr (pyStripS sql))], []) := by
  simp [ask_db, h]

-- Witness for C2 at `DROP TABLE users`.
theorem ask_db_policy_rejection_witness :
    ask_db dummyConn "DROP TABLE users" =
      ([("error", JVal.jstr policyMessage),
        ("sql", JVal.jstr (pyStripS "DROP TABLE users"))], []) :=
  ask_db_policy_rejection dummyConn "DROP TABLE users" (by decide)

-- Counterexample for C3: a single-statement input that begins with the
-- word `WITH`, contains the keyword `SELECT` on a later line, and matches
-- no forbidden pattern, yet is rejected: the `.*` of `^WITH\b.*SELECT\b`
-- cannot cross the newline.
theorem with_select_newline_counterexample :
    cleanedStatements "WITH t AS (\nSELECT 1)\nSELECT * FROM t" =
      ["WITH t AS (\nSELECT 1)\nSELECT * FROM t".toList] ∧
    wordAt withKw (pyUpper "WITH t AS (\nSELECT 1)\nSELECT * FROM t".toList) = true ∧
    containsWord selectKw (pyUpper "WITH t AS (\nSELECT 1)\nSELECT * FROM t".toList) = true ∧
    isForbiddenStmt (pyUpper "WITH t AS (\nSELECT 1)\nSELECT * FROM t".toList) = false ∧
    is_read_only_query "WITH t AS (\nSELECT 1)\nSELECT * FROM t" = false := by
  exact ⟨by decide, by decide, by decide, by decide, by decide⟩

/-- C3 (amended): a single-statement input beginning with the word `WITH`
and containing `SELECT` (followed by a word boundary) later on the same
first line, and matching no forbidden pattern, is classified Allowed. -/
theorem with_select_same_line_allowed (sql : String) (s : List Char)
    (hcs : cleanedStatements sql = [s])
    (hws : matchWithSelect (pyUpper s) = true)
    (hnf : isForbiddenStmt (pyUpper s) = false) :
    is_read_only_query sql = true :=
  is_read_only_of_single hcs hnf (by simp [isAllowedStmt, hws])

-- Witness for the amended C3.
theorem with_select_same_line_allowed_witness :
    is_read_only_query "WITH t AS (SELECT 1) SELECT * FROM t" = true :=
  with_select_same_line_allowed "WITH t AS (SELECT 1) SELECT * FROM t"
    "WITH t AS (SELECT 1) SELECT * FROM t".toList (by decide) (by decide) (by decide)

-- Counterexample for C4: `SELECT pragma = on` begins with the word
-- `SELECT` and contains none of the fourteen forbidden keywords, yet it is
-- rejected, because the fifth forbidden pattern `\bPRAGMA\b.*=\s*on$`
-- matches it.
theorem allowed_prefix_pragma_counterexample :
    cleanedStatements "SELECT pragma = on" = ["SELECT pragma = on".toList] ∧
    wordAt selectKw (pyUpper "SELECT pragma = on".toList) = true ∧
    (forbiddenKeywords.all fun kw =>
      !containsWord kw (pyUpper "SELECT pragma = on".toList)) = true ∧
    is_read_only_query "SELECT pragma = on" = false := by
  exact ⟨by decide, by decide, by decide, by decide⟩

/-- C4 (amended): a single-statement input beginning with `SELECT`,
`WITH ... SELECT` (on one line), `EXPLAIN`, `DESCRIBE`, or `SHOW`
(case-insensitive, leading whitespace tolerated) that matches none of the
forbidden patterns — the fourteen keywords and the `PRAGMA ... = on`
directive — is classified Allowed. -/
theorem allowed_prefix_not_forbidden_allowed (sql : String) (s : List Char)
    (hcs : cleanedStatements sql = [s])
    (hstart : startsReadOnly (pyUpper s) = true)
    (hnf : isForbiddenStmt (pyUpper s) = false) :
    is_read_only_query sql = true :=
  is_read_only_of_single hcs hnf (isAllowedStmt_of_startsReadOnly hstart)

-- Witness for the amended C4 (lower case, leading whitespace).
theorem allowed_prefix_not_forbidden_allowed_witness :
    is_read_only_query "  explain select * from t  " = true :=
  allowed_prefix_not_forbidden_allowed "  explain select * from t  "
    "explain select * from t".toList (by decide) (by decide) (by decide)

/-- C5: the classifier allows an input exactly when every one of its
cleaned, semicolon-delimited, non-empty statements passes the
per-statement check; in particular an input whose cleaned statement list
is empty (only comments and/or whitespace) is Allowed. -/
theorem classify_iff_each_statement (sql : String) :
    (is_read_only_query sql = true ↔
      ∀ s ∈ cleanedStatements sql, statementVerdict s = true) ∧
    (cleanedStatements sql = [] → is_read_only_query sql = true) := by
  constructor
  · exact checkStatements_eq_true_iff (cleanedStatements sql)
  · intro h
    unfold is_read_only_query
    rw [h]
    rfl

-- Witness for C5 on a comments-and-whitespace-only input.
theorem classify_iff_each_statement_witness :
    cleanedStatements "-- note\n/* x */ ;;" = [] ∧
    is_read_only_query "-- note\n/* x */ ;;" = true :=
  ⟨by decide, (classify_iff_each_statement "-- note\n/* x */ ;;").2 (by decide)⟩

-- Counterexample for C6: appending the line comment `-- x` to
-- `SELECT 1 ;-` changes the verdict (from Rejected to Allowed): the
-- trailing `-` of the original merges with the comment opener, so the
-- line-comment pass removes `--- x` and with it the offending statement.
theorem comment_insert_counterexample :
    is_read_only_query
        (String.mk ("SELECT 1 ;-".toList ++ '-' :: '-' :: (" x".toList ++ []))) ≠
      is_read_only_query "SELECT 1 ;-" := by
  decide

/-- C6 (amended): inserting a comment does not change the verdict as long
as the comment does not interact with partial comment delimiters in the
surrounding text.  Line comments: if the text before the insertion point
contains no `--` and does not end in `-`, the comment body contains no
newline, and the insertion point is at the end of the input or just before
a newline, inserting `--`-body there leaves the verdict unchanged.  Block
comments: if neither side forms a `--` with the comment removed or
inserted, the preceding text contains no `/*` (and does not end in `/`,
nor make one with the following text), and the body contains no `*/`,
inserting `/*`-body-`*/` leaves the verdict unchanged. -/
theorem comment_insert_verdict_invariant (a c b : List Char) :
    (containsSeq dashdash (a ++ ['-']) = false →
      c.all (fun ch => ch != '\n') = true →
      (b = [] ∨ ∃ b2, b = '\n' :: b2) →
      containsSeq dashdash (a ++ b.take 1) = false →
      is_read_only_query (String.mk (a ++ '-' :: '-' :: (c ++ b))) =
        is_read_only_query (String.mk (a ++ b))) ∧
    (containsSeq dashdash (a ++ '/' :: '*' :: (c ++ '*' :: '/' :: b)) = false →
      containsSeq dashdash (a ++ b) = false →
      containsSeq slashstar (a ++ ['/']) = false →
      containsSeq slashstar (a ++ b.take 1) = false →
      containsSeq starslash c = false →
      is_read_only_query (String.mk (a ++ '/' :: '*' :: (c ++ '*' :: '/' :: b))) =
        is_read_only_query (String.mk (a ++ b))) := by
  constructor
  · intro h1 h2 h3 h4
    have e1 : stripLineAux false (a ++ '-' :: '-' :: (c ++ b)) =
        a ++ stripLineAux false ('-' :: '-' :: (c ++ b)) :=
      stripLineAux_false_append a ('-' :: '-' :: (c ++ b)) h1
    have e2 : stripLineAux false ('-' :: '-' :: (c ++ b)) = stripLineAux false b := by
      have estart : stripLineAux false ('-' :: '-' :: (c ++ b)) =
          stripLineAux true ('-' :: (c ++ b)) := by
        simp [stripLineAux]
      rw [estart]
      have eall : (('-' :: c).all (fun ch => ch != '\n')) = true := by
        simp only [List.all_cons, Bool.and_eq_true]
        exact ⟨by decide, h2⟩
      have edrop : stripLineAux true (('-' :: c) ++ b) = stripLineAux true b :=
        stripLineAux_true_append eall b
      rw [show ('-' :: (c ++ b)) = (('-' :: c) ++ b) from rfl, edrop]
      exact stripLineAux_true_eq_false h3
    have e3 : stripLineAux false (a ++ b) = a ++ stripLineAux false b :=
      stripLineAux_false_append a b h4
    have key : stripLineAux false (a ++ '-' :: '-' :: (c ++ b)) =
        stripLineAux false (a ++ b) := by
      rw [e1, e2, e3]
    calc is_read_only_query (String.mk (a ++ '-' :: '-' :: (c ++ b)))
        = checkStatements (((splitSemi (pyStrip (blockAux none
            (stripLineAux false (a ++ '-' :: '-' :: (c ++ b)))))).map
            pyStrip).filter (fun stmt => !stmt.isEmpty)) := rfl
      _ = checkStatements (((splitSemi (pyStrip (blockAux none
            (stripLineAux false (a ++ b))))).map
            pyStrip).filter (fun stmt => !stmt.isEmpty)) := by rw [key]
      _ = is_read_only_query (String.mk (a ++ b)) := rfl
  · intro hd1 hd2 hb0 hb3 hb2
    have e1 : stripLineAux false (a ++ '/' :: '*' :: (c ++ '*' :: '/' :: b)) =
        a ++ '/' :: '*' :: (c ++ '*' :: '/' :: b) :=
      stripLineAux_false_id hd1
    have e2 : stripLineAux false (a ++ b) = a ++ b :=
      stripLineAux_false_id hd2
    have e3 : blockAux none (a ++ '/' :: '*' :: (c ++ '*' :: '/' :: b)) =
        a ++ blockAux none ('/' :: '*' :: (c ++ '*' :: '/' :: b)) :=
      blockAux_none_append a ('/' :: '*' :: (c ++ '*' :: '/' :: b)) hb0
    have e4 : blockAux none ('/' :: '*' :: (c ++ '*' :: '/' :: b)) =
        blockAux none b := by
      have eopen : blockAux none ('/' :: '*' :: (c ++ '*' :: '/' :: b)) =
          blockAux (some []) (c ++ '*' :: '/' :: b) := by
        simp [blockAux]
      rw [eopen]
      exact blockAux_some_close c hb2 [] b
    have e5 : blockAux none (a ++ b) = a ++ blockAux none b :=
      blockAux_none_append a b hb3
    have key : blockAux none (stripLineAux false
          (a ++ '/' :: '*' :: (c ++ '*' :: '/' :: b))) =
        blockAux none (stripLineAux false (a ++ b)) := by
      rw [e1, e2, e3, e4, e5]
    calc is_read_only_query (String.mk (a ++ '/' :: '*' :: (c ++ '*' :: '/' :: b)))
        = checkStatements (((splitSemi (pyStrip (blockAux none
            (stripLineAux false (a ++ '/' :: '*' :: (c ++ '*' :: '/' :: b)))))).map
            pyStrip).filter (fun stmt => !stmt.isEmpty)) := rfl
      _ = checkStatements (((splitSemi (pyStrip (blockAux none
            (stripLineAux false (a ++ b))))).map
            pyStrip).filter (fun stmt => !stmt.isEmpty)) := by rw [key]
      _ = is_read_only_query (String.mk (a ++ b)) := rfl

-- Witness for the amended C6: appending `-- DROP TABLE x` or the block
-- comment `/* DROP TABLE x */` to `SELECT 1` leaves the verdict unchanged
-- (and it is Allowed).
theorem comment_insert_verdict_invariant_witness :
    (is_read_only_query
        (String.mk ("SELECT 1".toList ++ '-' :: '-' :: (" DROP TABLE x".toList ++ []))) =
      is_read_only_query (String.mk ("SELECT 1".toList ++ []))) ∧
    (is_read_only_query
        (String.mk ("SELECT 1".toList ++
          '/' :: '*' :: (" DROP TABLE x ".toList ++ '*' :: '/' :: []))) =
      is_read_only_query (String.mk ("SELECT 1".toList ++ []))) ∧
    is_read_only_query "SELECT 1" = true :=
  ⟨(comment_insert_verdict_invariant "SELECT 1".toList " DROP TABLE x".toList []).1
      (by decide) (by decide) (Or.inl rfl) (by decide),
   (comment_insert_verdict_invariant "SELECT 1".toList " DROP TABLE x ".toList []).2
      (by decide) (by decide) (by decide) (by decide) (by decide),
   by decide⟩

/-- C7: a single-statement `PRAGMA` directive ending in `= off` (and
matching no forbidden pattern) is Allowed, and any input one of whose
statements matches the `PRAGMA ... = on` pattern is Rejected. -/
theorem pragma_off_on_toggle :
    (∀ (sql : String) (s : List Char), cleanedStatements sql = [s] →
      matchPragmaOff (pyUpper s) = true → isForbiddenStmt (pyUpper s) = false →
      is_read_only_query sql = true) ∧
    (∀ (sql : String) (s : List Char), s ∈ cleanedStatements sql →
      pragmaOnSearch (pyUpper s) = true → is_read_only_query sql = false) := by
  constructor
  · intro sql s hcs hoff hnf
    exact is_read_only_of_single hcs hnf (by simp [isAllowedStmt, hoff])
  · intro sql s hmem hon
    unfold is_read_only_query
    exact checkStatements_eq_false_of_forbidden hmem
      (by simp [isForbiddenStmt, hon])

-- Witness for C7: the same directive, lower case, toggled both ways.
theorem pragma_off_on_toggle_witness :
    is_read_only_query "pragma synchronous = off" = true ∧
    is_read_only_query "pragma synchronous = on" = false :=
  ⟨pragma_off_on_toggle.1 "pragma synchronous = off"
     "pragma synchronous = off".toList (by decide) (by decide) (by decide),
   pragma_off_on_toggle.2 "pragma synchronous = on"
     "pragma synchronous = on".toList (by decide) (by decide)⟩

/-- C8: on an admitted input whose execution faults, `ask_db` catches the
fault and returns (never raises) an error payload embedding the engine's
fault description together with the trimmed SQL, and the connection events
are acquire, execute, release — the connection is released before
returning. -/
theorem ask_db_execution_fault (conn : Conn) (sql e : String)
    (hok : is_read_only_query (pyStripS sql) = true)
    (hrun : conn.run (pyStripS sql) = Except.error e) :
    ask_db conn sql =
      ([("error", JVal.jstr ("SQL execution failed: " ++ e)),
        ("sql", JVal.jstr (pyStripS sql))],
       [DBEvent.acquire, DBEvent.exec (pyStripS sql), DBEvent.release]) := by
  simp [ask_db, hok, hrun]

-- Witness for C8.
theorem ask_db_execution_fault_witness :
    ask_db faultConn "SELECT * FROM nope" =
      ([("error", JVal.jstr ("SQL execution failed: " ++ "relation missing")),
        ("sql", JVal.jstr (pyStripS "SELECT * FROM nope"))],
       [DBEvent.acquire, DBEvent.exec (pyStripS "SELECT * FROM nope"),
        DBEvent.release]) :=
  ask_db_execution_fault faultConn "SELECT * FROM nope" "relation missing"
    (by decide) rfl

/-- C9: on an admitted input whose execution succeeds, `ask_db` returns
the trimmed SQL under `sql` and, under `result`, exactly the row sequence
the engine produced — rows and columns in engine order, unmodified. -/
theorem ask_db_success_materializes (conn : Conn) (sql : String) (rows : List Row)
    (hok : is_read_only_query (pyStripS sql) = true)
    (hrun : conn.run (pyStripS sql) = Except.ok rows) :
    ask_db conn sql =
      ([("sql", JVal.jstr (pyStripS sql)), ("result", JVal.jrows rows)],
       [DBEvent.acquire, DBEvent.exec (pyStripS sql), DBEvent.release]) := by
  simp [ask_db, hok, hrun]

-- Witness for C9: the spec's example `SELECT 1 AS x` against a connection
-- yielding the single row `{x: 1}`.
theorem ask_db_success_materializes_witness :
    ask_db oneRowConn "SELECT 1 AS x" =
      ([("sql", JVal.jstr (pyStripS "SELECT 1 AS x")),
        ("result", JVal.jrows [[("x", Value.intV 1)]])],
       [DBEvent.acquire, DBEvent.exec (pyStripS "SELECT 1 AS x"),
        DBEvent.release]) :=
  ask_db_success_materializes oneRowConn "SELECT 1 AS x" [[("x", Value.intV 1)]]
    (by decide) rfl

/-- C10: for every input and every connection behaviour, `ask_db` returns
a dictionary holding the stripped SQL under `sql` together with exactly
one of `result` (success) or `error` (policy rejection or execution
fault). -/
theorem ask_db_payload_shape (conn : Conn) (sql : String) :
    lookupKey "sql" (ask_db conn sql).1 = some (JVal.jstr (pyStripS sql)) ∧
    (((lookupKey "result" (ask_db conn sql).1).isSome ∧
        (lookupKey "error" (ask_db conn sql).1).isNone) ∨
     ((lookupKey "error" (ask_db conn sql).1).isSome ∧
        (lookupKey "result" (ask_db conn sql).1).isNone)) := by
  cases h : is_read_only_query (pyStripS sql) with
  | false =>
    simp only [ask_db, h, Bool.not_false, if_true]
    exact ⟨rfl, Or.inr ⟨rfl, rfl⟩⟩
  | true =>
    cases hr : conn.run (pyStripS sql) with
    | error e =>
      simp only [ask_db, h, hr, Bool.not_true, if_false]
      exact ⟨rfl, Or.inr ⟨rfl, rfl⟩⟩
    | ok rows =>
      simp only [ask_db, h, hr, Bool.not_true, if_false]
      exact ⟨rfl, Or.inl ⟨rfl, rfl⟩⟩

end DbAssistant
